import Mathlib

/-!
Verification of the weather-map front end (windyService, useWindyInitializer,
ScriptLoader, MapContainer zoom-swap, geo helpers) against its specification.

Each TypeScript function under scrutiny is shallowly embedded as an executable
Lean definition; exceptions become `Except` or explicit error logs, DOM and
store mutation become explicit state passing, and JS numbers become `ℚ`.
-/

namespace WindyModel

/-! ## The Windy key-value store (windyApi.store), as an association list. -/

def storeSet (st : List (String × String)) (k v : String) : List (String × String) :=
  (k, v) :: st.filter (fun p => ¬ p.1 = k)

def storeGet (st : List (String × String)) (k : String) : Option String :=
  (st.find? (fun p => p.1 = k)).map (fun p => p.2)

/-! ## WindyService (src/undp-frontend/src/services/windyService.ts) -/

/-- One entry of the static overlay catalog returned by getAvailableLayers. -/
structure WindyLayer where
  id : String
  name : String
  overlayFunction : String
  deriving DecidableEq, Repr

/-- The static catalog from WindyService.getAvailableLayers. -/
def getAvailableLayers : List WindyLayer :=
  [ ⟨"wind", "Wind Layer", "wind"⟩,
    ⟨"temp", "Temperature", "temp"⟩,
    ⟨"clouds", "Clouds", "clouds"⟩,
    ⟨"pressure", "Pressure", "pressure"⟩,
    ⟨"rainClouds", "Rain & Clouds", "rainClouds"⟩ ]

/-- A registered change listener; `throws` records whether invoking it raises. -/
structure Listener where
  id : Nat
  throws : Bool
  deriving DecidableEq, Repr

/-- Invoking a raw listener: raises exactly when the listener throws. -/
def runListener (l : Listener) (event : String) : Except String Unit :=
  if l.throws then Except.error ("listener " ++ toString l.id ++ " failed on " ++ event)
  else Except.ok ()

/-- The try/catch around one listener call inside notifyListeners: a raised
error is logged (returned in the list) and swallowed. -/
def invokeGuarded (l : Listener) (event : String) : Except String (List String) :=
  match runListener l event with
  | Except.ok _ => Except.ok []
  | Except.error e => Except.ok ["Error in Windy listener: " ++ e]

/-- WindyService.notifyListeners: iterates over changeListeners, guarding each
call; returns the ids invoked (in order) and the error log. -/
def notifyListeners (ls : List Listener) (event : String) :
    Except String (List Nat × List String) :=
  match ls with
  | [] => Except.ok ([], [])
  | l :: rest =>
      match invokeGuarded l event with
      | Except.error e => Except.error e
      | Except.ok logged =>
          match notifyListeners rest event with
          | Except.error e => Except.error e
          | Except.ok r => Except.ok (l.id :: r.1, logged ++ r.2)

/-- Total wrapper used by the stateful service methods (notifyListeners never
propagates an error, proved below). -/
def notifyRun (ls : List Listener) (event : String) : List Nat × List String :=
  match notifyListeners ls event with
  | Except.ok r => r
  | Except.error e => ([], [e])

/-- The slice of the external windyApi object that WindyService reads and
writes: the key-value store (absent in some test mocks, hence the presence
flag), the overlay-activation registry, and the Leaflet map. -/
structure WindyAPIModel where
  storePresent : Bool
  store : List (String × String)
  overlays : List String
  mapPresent : Bool
  deriving DecidableEq, Repr

/-- A weather data point (WeatherData in windyService.ts). -/
structure WeatherData where
  lat : ℚ
  lon : ℚ
  temperature : ℚ
  humidity : ℚ
  windSpeed : ℚ
  pressure : ℚ
  deriving DecidableEq, Repr

/-- A Leaflet marker produced by addWeatherMarkers: position plus the rounded
temperature rendered into its div icon. -/
structure WeatherMarker where
  lat : ℚ
  lon : ℚ
  tempLabel : ℤ
  deriving DecidableEq, Repr

def mkWeatherMarker (p : WeatherData) : WeatherMarker :=
  ⟨p.lat, p.lon, round p.temperature⟩

/-- The mutable state of a WindyService instance together with its observable
console output and call traces. -/
structure ServiceState where
  api : WindyAPIModel
  markersLayer : Option (List WeatherMarker)
  changeListeners : List Listener
  overlayCalls : List String
  warnings : List String
  errors : List String
  notified : List String
  deriving DecidableEq, Repr

/-- WindyService.setActiveLayer: inside a try/catch it unconditionally writes
the given id into the store under the key overlay, then looks the id up in the
static catalog and, on a hit whose activation function is registered, invokes
that function, and finally notifies listeners of a layerChange event.  When the
store is absent the initial store write raises, and the catch logs the error
and nothing else happens. -/
def setActiveLayer (s : ServiceState) (layerId : String) : ServiceState :=
  if s.api.storePresent then
    let api2 := { s.api with store := storeSet s.api.store "overlay" layerId }
    let layer := getAvailableLayers.find? (fun l => l.id = layerId)
    let calls :=
      match layer with
      | some l => if s.api.overlays.contains l.overlayFunction then [l.overlayFunction] else []
      | none => []
    let nr := notifyRun s.changeListeners "layerChange"
    { s with
        api := api2,
        overlayCalls := s.overlayCalls ++ calls,
        notified := s.notified ++ ["layerChange"],
        errors := s.errors ++ nr.2 }
  else
    { s with errors := s.errors ++ ["Error setting active layer: store unavailable"] }

/-- WindyService.addWeatherMarkers: warns and returns when the map or the
markers layer is unavailable; otherwise clears the markers layer and pushes one
marker per data point in order. -/
def addWeatherMarkers (s : ServiceState) (weatherData : List WeatherData) : ServiceState :=
  if s.api.mapPresent = false ∨ s.markersLayer = none then
    { s with warnings := s.warnings ++ ["Map or markers layer not available"] }
  else
    let repopulated := weatherData.foldl (fun acc p => acc ++ [mkWeatherMarker p]) []
    { s with markersLayer := some repopulated }

/-! ## useWindyInitializer.initializeWindy (src/undp-frontend/src/hooks/useWindyInitializer.ts)
and the map-based variant of the same hook (src/unnamed/part_003). -/

/-- Behavior of the external window.windyInit global when called: not present,
calls back with a handle, or raises. -/
inductive ExtInit where
  | absent
  | succeeds (handle : Nat)
  | throws (msg : String)
  deriving DecidableEq, Repr

/-- The hard-coded fallback access key in the container-based hook's
defaultOptions. -/
def fallbackKey : String := "3HFvxAW5zvdalES1JlOw6kNyHybrp1j7"

/-- Key of the container-based hook's defaultOptions: the environment key when
set and non-empty (JS truthiness of the or-expression), else the hard-coded
fallback. -/
def defaultKey (envKey : Option String) : String :=
  match envKey with
  | some k => if k = "" then fallbackKey else k
  | none => fallbackKey

/-- JS falsiness of env.WINDY_API_KEY: unset or the empty string. -/
def keyMissing : Option String → Bool
  | none => true
  | some k => k = ""

/-- React state of the container-based useWindyInitializer hook. -/
structure HookState where
  windyInstance : Option Nat
  isLoading : Bool
  error : Option String
  leafletScriptLoaded : Bool
  windyScriptLoaded : Bool
  initAttempted : Bool
  deriving DecidableEq, Repr

/-- Observable outcome of one initializeWindy call: the new hook state, the
container id after the forced assignment, the console warnings, whether
window.windyInit was invoked, and the access key passed to it if so. -/
structure InitResult where
  state : HookState
  containerId : String
  warnings : List String
  invokedExt : Bool
  usedKey : Option String
  deriving DecidableEq, Repr

/-- The container-based initializeWindy: forces the container id to windy
(warning when it differed), rejects the call while an attempt is pending or an
instance exists, rejects with an error while the scripts are not loaded, and
otherwise invokes window.windyInit inside a try/catch, whose callback stores
the handle; a raised exception is recorded as the error.  The key handed to the
initializer is the initialOptions override when present, else defaultOptions
falls back to the environment key or the hard-coded key. -/
def initializeWindyContainer (ext : ExtInit) (envKey keyOverride : Option String)
    (s : HookState) (containerId : String) : InitResult :=
  let warns := if containerId = "windy" then []
    else ["Container element should have id windy for Windy API to work properly"]
  if s.initAttempted ∨ s.windyInstance ≠ none then
    ⟨s, "windy", warns, false, none⟩
  else if ¬ (s.leafletScriptLoaded ∧ s.windyScriptLoaded) then
    ⟨{ s with error := some "Required scripts not loaded yet" }, "windy",
      warns ++ ["Leaflet or Windy scripts not loaded yet."], false, none⟩
  else
    let key := match keyOverride with
      | some k => k
      | none => defaultKey envKey
    match ext with
    | ExtInit.absent =>
        ⟨{ s with error := some "Windy API not properly loaded",
                  initAttempted := false, isLoading := false },
          "windy", warns, false, none⟩
    | ExtInit.throws m =>
        ⟨{ s with error := some m, initAttempted := false, isLoading := false },
          "windy", warns, true, some key⟩
    | ExtInit.succeeds h =>
        ⟨{ s with windyInstance := some h, initAttempted := false, isLoading := false },
          "windy", warns, true, some key⟩

/-- React state of the map-based useWindyInitializer variant. -/
structure MapHookState where
  windyInstance : Option Nat
  isLoading : Bool
  error : Option String
  scriptLoaded : Bool
  deriving DecidableEq, Repr

/-- Outcome of one call of the map-based variant. -/
structure MapInitResult where
  state : MapHookState
  warnings : List String
  invokedExt : Bool
  deriving DecidableEq, Repr

/-- The map-based initializeWindy variant: rejects with an error while the
script is not loaded, rejects with an error when no environment key is
configured, and otherwise awaits window.windyInit inside a try/catch; a missing
global or a raised exception is recorded as the error. -/
def initializeWindyMap (ext : ExtInit) (envKey : Option String)
    (s : MapHookState) : MapInitResult :=
  if ¬ s.scriptLoaded then
    ⟨{ s with error := some "Windy script not loaded yet" },
      ["Windy script not loaded yet. Make sure you have a valid API key."], false⟩
  else if keyMissing envKey then
    ⟨{ s with error := some "Missing Windy API key" },
      ["Missing Windy API key. Set REACT_APP_WINDY_API_KEY in your environment."], false⟩
  else
    match ext with
    | ExtInit.absent =>
        ⟨{ s with error := some "window.windyInit is not a function", isLoading := false },
          [], false⟩
    | ExtInit.throws m =>
        ⟨{ s with error := some m, isLoading := false }, [], true⟩
    | ExtInit.succeeds h =>
        ⟨{ s with windyInstance := some h, isLoading := false }, [], true⟩

/-! ## The script-bootstrap effects of useWindyInitializer and ScriptLoader.

The page-global side effects live in a shared `Dom`; each effect reads and
writes its component's loaded flag and returns whether it injected a tag. -/

/-- Page-global state: the two script tags and the two globals the loaded
scripts install. -/
structure Dom where
  leafletTag : Bool
  windyTag : Bool
  windowL : Bool
  windyInitFn : Bool
  deriving DecidableEq, Repr

/-- The Leaflet-script effect of useWindyInitializer (new flag, new dom,
injected a tag): skips when the flag is set or window.L exists, skips when the
tag already exists (marking loaded), else injects the tag. -/
def leafletEffectHook (loaded : Bool) (d : Dom) : Bool × Dom × Bool :=
  if loaded ∨ d.windowL then (true, d, false)
  else if d.leafletTag then (true, d, false)
  else (loaded, { d with leafletTag := true }, true)

/-- The Windy-script effect of useWindyInitializer: marks loaded when
window.windyInit already exists, waits while Leaflet is not loaded or Windy
already is, skips when the tag already exists (marking loaded), else injects
the tag. -/
def windyEffectHook (leafletLoaded windyLoaded : Bool) (d : Dom) : Bool × Dom × Bool :=
  if d.windyInitFn then (true, d, false)
  else if ¬ leafletLoaded ∨ windyLoaded then (windyLoaded, d, false)
  else if d.windyTag then (true, d, false)
  else (windyLoaded, { d with windyTag := true }, true)

/-- The Leaflet-script effect of ScriptLoader: skips when window.L exists or
the tag already exists (marking loaded), else injects the tag. -/
def leafletEffectLoader (d : Dom) : Bool × Dom × Bool :=
  if d.windowL then (true, d, false)
  else if d.leafletTag then (true, d, false)
  else (false, { d with leafletTag := true }, true)

/-- The Windy-script effect of ScriptLoader: waits while Leaflet is not
loaded, then marks loaded when window.windyInit or the tag already exists, else
injects the tag. -/
def windyEffectLoader (leafletLoaded windyLoaded : Bool) (d : Dom) : Bool × Dom × Bool :=
  if ¬ leafletLoaded then (windyLoaded, d, false)
  else if d.windyInitFn then (true, d, false)
  else if d.windyTag then (true, d, false)
  else (windyLoaded, { d with windyTag := true }, true)

/-- The effect cleanup of useWindyInitializer on unmount: removes the script
tag this instance created if it is still in the document. -/
def leafletCleanupHook (created : Bool) (d : Dom) : Dom :=
  if created ∧ d.leafletTag then { d with leafletTag := false } else d

/-- Combined bootstrap state of one mounted useWindyInitializer instance. -/
structure BootState where
  dom : Dom
  leafletLoaded : Bool
  windyLoaded : Bool
  deriving DecidableEq, Repr

/-- The Leaflet effect applied to the combined state. -/
def applyLeafletEffect (s : BootState) : BootState :=
  let r := leafletEffectHook s.leafletLoaded s.dom
  { s with leafletLoaded := r.1, dom := r.2.1 }

/-- The Windy effect applied to the combined state. -/
def applyWindyEffect (s : BootState) : BootState :=
  let r := windyEffectHook s.leafletLoaded s.windyLoaded s.dom
  { s with windyLoaded := r.1, dom := r.2.1 }

/-- One event of the bootstrap sequence: an effect run, a script onload
(which installs the corresponding global and sets the flag, and presupposes
the tag was injected), or a script onerror (which only records an error). -/
inductive BootStep : BootState → BootState → Prop where
  | leafletEffect (s : BootState) : BootStep s (applyLeafletEffect s)
  | windyEffect (s : BootState) : BootStep s (applyWindyEffect s)
  | leafletOnload (s : BootState) (htag : s.dom.leafletTag = true) :
      BootStep s { s with dom := { s.dom with windowL := true }, leafletLoaded := true }
  | windyOnload (s : BootState) (htag : s.dom.windyTag = true) :
      BootStep s { s with dom := { s.dom with windyInitFn := true }, windyLoaded := true }
  | leafletOnerror (s : BootState) (htag : s.dom.leafletTag = true) : BootStep s s
  | windyOnerror (s : BootState) (htag : s.dom.windyTag = true) : BootStep s s

/-- The clean initial page: no tags, no globals, no flags. -/
def bootInit : BootState := ⟨⟨false, false, false, false⟩, false, false⟩

/-- States reachable by the bootstrap sequence from the clean initial page. -/
def BootReachable (s : BootState) : Prop :=
  Relation.ReflTransGen BootStep bootInit s

/-! ## The zoom-driven layer swap (checkZoomAndToggleBackupLayer in the
MapContainer variant of src/unnamed/part_012). -/

/-- State of the zoom-driven backup-layer machinery: whether the tile-layer
object was constructed (backupLayerRef non-null), whether it is attached to the
map, the active flag, the last observed zoom, the throttle timestamp, and a
count of tile-layer constructions. -/
structure ZoomState where
  created : Bool
  onMap : Bool
  active : Bool
  currentZoom : ℚ
  lastCheck : ℕ
  creations : ℕ
  deriving DecidableEq, Repr

/-- checkZoomAndToggleBackupLayer: returns unchanged when the Windy instance or
map is absent or when throttled (under 50ms since the last check); otherwise
records the check time, reads the zoom from the store (none models a missing or
non-numeric mapCoords and a store.get exception, both leaving the layers
untouched), and toggles: above 11 it constructs the layer on first need,
re-attaches it when detached and marks it active; at 11 or below it detaches an
attached active layer without destroying it. -/
def checkZoomAndToggleBackupLayer (ready : Bool) (s : ZoomState) (now : ℕ)
    (zoom : Option ℚ) : ZoomState :=
  if ready = false then s
  else if now - s.lastCheck < 50 then s
  else
    let s1 := { s with lastCheck := now }
    match zoom with
    | none => s1
    | some z =>
      let s2 := { s1 with currentZoom := z }
      if 11 < z then
        if s2.active then s2
        else if s2.created = false then
          { s2 with created := true, onMap := true, active := true,
                    creations := s2.creations + 1 }
        else if s2.onMap = false then { s2 with onMap := true, active := true }
        else { s2 with active := true }
      else
        if s2.active ∧ s2.created ∧ s2.onMap then
          { s2 with onMap := false, active := false }
        else s2

/-- Consistency of the zoom-swap state: the active flag mirrors attachment and
only a constructed layer can be attached.  It holds for the initial state
(nothing created, nothing attached) and is preserved by every check. -/
def ZoomInv (s : ZoomState) : Prop :=
  s.active = s.onMap ∧ (s.onMap = true → s.created = true)

/-- State of a live service with an empty markers layer and the overlay set to
wind, used to instantiate the marker and layer claims. -/
def serviceExample : ServiceState :=
  { api := { storePresent := true, store := [("overlay", "wind")],
             overlays := ["wind", "temp", "clouds", "pressure", "rainClouds"],
             mapPresent := true },
    markersLayer := some [],
    changeListeners := [],
    overlayCalls := [],
    warnings := [],
    errors := [],
    notified := [] }

/-- Hook state with an initialization attempt in flight. -/
def hookStatePending : HookState :=
  ⟨none, true, none, true, true, true⟩

/-- Ordering invariant of the bootstrap sequence: the Windy tag or global can
only appear once the Leaflet flag is set. -/
def BootInv (s : BootState) : Prop :=
  (s.dom.windyTag = true → s.leafletLoaded = true) ∧
  (s.dom.windyInitFn = true → s.leafletLoaded = true)

/-- ScriptLoader's onerror handler: it reports the failure to the parent but
leaves the script tag in the document and the loaded flag unset. -/
def leafletOnErrorLoader (d : Dom) : Dom := d

/-- The page state left behind after ScriptLoader injected the Leaflet tag and
the load failed: the tag is present but window.L never appeared. -/
def domFailedLeaflet : Dom := ⟨true, false, false, false⟩

/-- Fresh hook state with both scripts loaded and no attempt in flight. -/
def hookStateReady : HookState :=
  ⟨none, false, none, true, true, false⟩

end WindyModel

namespace GeoModel

/-! ## Geographic helpers around the useTurfAnalysis hook. -/

/-- A geographic point in degrees. -/
structure GeoPoint where
  lat : ℚ
  lng : ℚ
  deriving DecidableEq, Repr

/-- Synchronous geometric-input failure. -/
inductive GeoError where
  | invalidArgument
  deriving DecidableEq, Repr

/-- A polygon ring as its vertex list (closing vertex repeated). -/
abbrev Polygon := List GeoPoint

/-- A polygon is closed when its first and last vertices coincide. -/
def closedPolygon (p : Polygon) : Prop := p.head? = p.getLast?

/-- Degrees-per-kilometer conversion at spec precision. -/
def kmToDeg (r : ℚ) : ℚ := r / 111

/-- Offsets of a regular octagon of circumradius d, the diagonal offsets using
the rational approximation 70/99 of the inverse square root of two. -/
def octagonOffsets (d : ℚ) : List (ℚ × ℚ) :=
  let a := d * 70 / 99
  [ (d, 0), (a, a), (0, d), (-a, a), (-d, 0), (-a, -a), (0, -d), (a, -a) ]

/-- Modelled from the spec: the useTurfAnalysis hook implementing createBuffer
is not under src (only its commented-out test stub and its MapContainer call
sites are), so circularBuffer follows the spec wording: it produces a closed
polygon approximating a circle of the given radius around the center, in
geographic coordinates; the radius must be positive and the function fails with
InvalidArgument otherwise. -/
def circularBuffer (center : GeoPoint) (radiusKm : ℚ) : Except GeoError Polygon :=
  if radiusKm ≤ 0 then Except.error GeoError.invalidArgument
  else
    let d := kmToDeg radiusKm
    let ring := (octagonOffsets d).map
      (fun o => GeoPoint.mk (center.lat + o.1) (center.lng + o.2))
    Except.ok (ring ++ [GeoPoint.mk (center.lat + d) (center.lng + 0)])

/-- Centroid of the polygon's distinct vertices (the closing vertex dropped). -/
def centroid (p : Polygon) : GeoPoint :=
  let ring := p.dropLast
  let n : ℚ := ring.length
  if ring.length = 0 then ⟨0, 0⟩
  else ⟨(ring.map GeoPoint.lat).sum / n, (ring.map GeoPoint.lng).sum / n⟩

/-- Taxicab distance between two geographic points, in degrees. -/
def geoDist (a b : GeoPoint) : ℚ := |a.lat - b.lat| + |a.lng - b.lng|

end GeoModel

namespace WindyModel

theorem storeGet_storeSet_self (st : List (String × String)) (k v : String) :
    storeGet (storeSet st k v) k = some v := by
  simp [storeGet, storeSet]

theorem foldl_push_eq_map {α β : Type} (f : α → β) (xs : List α) (init : List β) :
    xs.foldl (fun acc p => acc ++ [f p]) init = init ++ xs.map f := by
  induction xs generalizing init with
  | nil => simp
  | cons x xs ih => simp [List.foldl, ih]

/-- Claim C10: notifyListeners invokes every registered change listener exactly
once and in order, a listener that throws has its error caught and logged
without preventing delivery to the remaining listeners, and no exception ever
propagates out of the notification to the event source. -/
theorem notifyListeners_delivers_all (ls : List Listener) (event : String) :
    notifyListeners ls event =
      Except.ok (ls.map Listener.id,
        (ls.filter Listener.throws).map
          (fun l => "Error in Windy listener: " ++
            ("listener " ++ toString l.id ++ " failed on " ++ event))) := by
  induction ls with
  | nil => rfl
  | cons l rest ih =>
      by_cases h : l.throws <;>
        simp [notifyListeners, invokeGuarded, runListener, ih, h, List.filter]

/-- Claim C6 (theorem): when the map and the markers layer exist,
addWeatherMarkers replaces the layer contents with exactly one marker per input
point; with the empty list the layer ends up empty, and a second empty call
leaves it empty again. -/
theorem addWeatherMarkers_replaces_layer (s : ServiceState) (pts : List WeatherData)
    (ms : List WeatherMarker) (hmap : s.api.mapPresent = true)
    (hlayer : s.markersLayer = some ms) :
    (addWeatherMarkers s pts).markersLayer = some (pts.map mkWeatherMarker) ∧
    (addWeatherMarkers s []).markersLayer = some [] ∧
    (addWeatherMarkers (addWeatherMarkers s []) []).markersLayer = some [] := by
  refine ⟨?_, ?_, ?_⟩ <;>
    simp [addWeatherMarkers, hmap, hlayer, foldl_push_eq_map]

/-- Claim C6 (witness): the replacement property evaluated on a concrete
service state and a singleton point list. -/
theorem addWeatherMarkers_replaces_layer_witness :
    (addWeatherMarkers serviceExample [⟨10, 106, 27, 80, 3, 1013⟩]).markersLayer =
        some [mkWeatherMarker ⟨10, 106, 27, 80, 3, 1013⟩] ∧
    (addWeatherMarkers serviceExample []).markersLayer = some [] ∧
    (addWeatherMarkers (addWeatherMarkers serviceExample []) []).markersLayer = some [] :=
  addWeatherMarkers_replaces_layer serviceExample [⟨10, 106, 27, 80, 3, 1013⟩] [] rfl rfl

/-- Claim C1 (counterexample): on a live handle whose active overlay is wind,
setActiveLayer with the unknown id writes that id into the store entry for
overlay (the active overlay selection does change) and logs no warning, so the
claimed no-state-change-plus-warning contract fails on the code. -/
theorem setActiveLayer_unknown_id_counterexample :
    storeGet (setActiveLayer serviceExample "not-a-real-layer").api.store "overlay" =
        some "not-a-real-layer" ∧
    storeGet serviceExample.api.store "overlay" = some "wind" ∧
    (setActiveLayer serviceExample "not-a-real-layer").warnings = [] := by
  refine ⟨?_, rfl, rfl⟩
  simp [setActiveLayer, serviceExample, storeGet_storeSet_self]

/-- Claim C1 (amended): for an id outside the static catalog, setActiveLayer
returns normally (the body is guarded by a try/catch), logs no warning, invokes
no overlay-activation function, and writes the unknown id into the store entry
for overlay whenever the store is present (when the store is absent the store
write raises, the error is logged, and the store is untouched). -/
theorem setActiveLayer_unknown_id_behavior (s : ServiceState) (layerId : String)
    (h : layerId ∉ getAvailableLayers.map WindyLayer.id) :
    (setActiveLayer s layerId).warnings = s.warnings ∧
    (setActiveLayer s layerId).overlayCalls = s.overlayCalls ∧
    (s.api.storePresent = true →
      storeGet (setActiveLayer s layerId).api.store "overlay" = some layerId) ∧
    (s.api.storePresent = false →
      (setActiveLayer s layerId).api.store = s.api.store) := by
  have hfind : getAvailableLayers.find? (fun l => l.id = layerId) = none := by
    rw [List.find?_eq_none]
    intro l hl
    simp only [decide_eq_true_eq]
    intro heq
    exact h (List.mem_map.mpr ⟨l, hl, heq⟩)
  by_cases hs : s.api.storePresent <;>
    simp [setActiveLayer, hs, hfind, storeGet_storeSet_self]

/-- Claim C1 (witness): the amended contract evaluated at a concrete live
state and the unknown id not-a-real-layer. -/
theorem setActiveLayer_unknown_id_behavior_witness :
    (setActiveLayer serviceExample "not-a-real-layer").warnings =
        serviceExample.warnings ∧
    (setActiveLayer serviceExample "not-a-real-layer").overlayCalls =
        serviceExample.overlayCalls ∧
    (serviceExample.api.storePresent = true →
      storeGet (setActiveLayer serviceExample "not-a-real-layer").api.store "overlay" =
        some "not-a-real-layer") ∧
    (serviceExample.api.storePresent = false →
      (setActiveLayer serviceExample "not-a-real-layer").api.store =
        serviceExample.api.store) :=
  setActiveLayer_unknown_id_behavior serviceExample "not-a-real-layer" (by decide)

/-- Claim C2: while an initialization attempt is pending or a handle already
exists, initializeWindy returns without invoking the external initializer and
without touching the hook state, so at most one WidgetHandle exists per
MapView instance. -/
theorem initializeWindy_single_attempt (ext : ExtInit) (envKey keyOverride : Option String)
    (s : HookState) (cid : String)
    (h : s.initAttempted = true ∨ s.windyInstance ≠ none) :
    (initializeWindyContainer ext envKey keyOverride s cid).invokedExt = false ∧
    (initializeWindyContainer ext envKey keyOverride s cid).state = s := by
  rcases h with h | h <;> simp [initializeWindyContainer, h]

/-- Claim C2 (witness): a second call while an attempt is pending is a no-op
on a concrete pending state. -/
theorem initializeWindy_single_attempt_witness :
    (initializeWindyContainer (ExtInit.succeeds 2) none none hookStatePending "windy").invokedExt
        = false ∧
    (initializeWindyContainer (ExtInit.succeeds 2) none none hookStatePending "windy").state
        = hookStatePending :=
  initializeWindy_single_attempt (ExtInit.succeeds 2) none none hookStatePending "windy"
    (Or.inl rfl)

end WindyModel

namespace WindyModel

theorem bootStep_preserves (s t : BootState) (h : BootStep s t) (hinv : BootInv s) :
    BootInv t := by
  obtain ⟨h1, h2⟩ := hinv
  cases h with
  | leafletEffect =>
      unfold BootInv applyLeafletEffect leafletEffectHook
      split_ifs <;> simp_all
  | windyEffect =>
      unfold BootInv applyWindyEffect windyEffectHook
      split_ifs <;> simp_all
  | leafletOnload htag => exact ⟨fun _ => rfl, fun _ => rfl⟩
  | windyOnload htag => exact ⟨fun _ => h1 htag, fun _ => h1 htag⟩
  | leafletOnerror htag => exact ⟨h1, h2⟩
  | windyOnerror htag => exact ⟨h1, h2⟩

theorem bootReachable_inv (s : BootState) (h : BootReachable s) : BootInv s := by
  unfold BootReachable at h
  induction h with
  | refl => exact ⟨fun hc => by simp [bootInit] at hc, fun hc => by simp [bootInit] at hc⟩
  | tail hsteps hstep ih => exact bootStep_preserves _ _ hstep ih

/-- Claim C3: in every reachable state of the bootstrap sequence the Windy
script tag is present only after the Leaflet-loaded flag is set, the Windy
effect is a complete no-op while that flag is false, and the ScriptLoader
variant of the Windy effect likewise does nothing before Leaflet is loaded. -/
theorem windy_script_injection_ordering :
    (∀ s : BootState, BootReachable s →
      (s.dom.windyTag = true → s.leafletLoaded = true) ∧
      (s.leafletLoaded = false → applyWindyEffect s = s)) ∧
    (∀ (wl : Bool) (d : Dom), windyEffectLoader false wl d = (wl, d, false)) := by
  constructor
  · intro s hreach
    have hinv := bootReachable_inv s hreach
    obtain ⟨⟨lt, wt, wL, wIF⟩, ll, wl⟩ := s
    refine ⟨hinv.1, ?_⟩
    intro hfalse
    simp only at hfalse
    subst hfalse
    have hfn : wIF = false := by
      cases hf : wIF
      · rfl
      · exact absurd (hinv.2 hf) (by simp)
    subst hfn
    simp [applyWindyEffect, windyEffectHook]
  · intro wl d
    simp [windyEffectLoader]

/-- Claim C3 (witness): the ordering property evaluated at the clean initial
page, where the Windy effect does nothing. -/
theorem windy_script_injection_ordering_witness :
    applyWindyEffect bootInit = bootInit ∧
    windyEffectLoader false false ⟨false, false, false, false⟩ =
      (false, ⟨false, false, false, false⟩, false) :=
  ⟨(windy_script_injection_ordering.1 bootInit Relation.ReflTransGen.refl).2 rfl,
   windy_script_injection_ordering.2 false ⟨false, false, false, false⟩⟩

/-- Claim C4 (counterexample): ScriptLoader injects the tag on a clean page;
after a load error the tag stays in the document, and a re-invocation of the
load step finds the tag, marks the script loaded and injects nothing — the
retry does not re-attempt the load from scratch as claimed. -/
theorem failed_tag_retry_counterexample :
    (leafletEffectLoader ⟨false, false, false, false⟩).2.1 = domFailedLeaflet ∧
    (leafletEffectLoader ⟨false, false, false, false⟩).2.2 = true ∧
    leafletOnErrorLoader domFailedLeaflet = domFailedLeaflet ∧
    leafletEffectLoader domFailedLeaflet = (true, domFailedLeaflet, false) := by
  decide

/-- Claim C4 (amended): after a script-load error the failed tag remains in the
document, and the existing-tag check treats any present tag as successfully
loaded, so a ScriptLoader retry marks the script loaded and skips injection
instead of re-attempting; only the unmount cleanup of useWindyInitializer
removes the tag its instance created, after which a fresh mount re-injects a
fresh load request. -/
theorem failed_tag_retry_behavior :
    (∀ d : Dom, d.leafletTag = true → d.windowL = false →
      leafletEffectLoader d = (true, d, false)) ∧
    (∀ d : Dom, (leafletCleanupHook true { d with leafletTag := true }).leafletTag = false) ∧
    (∀ d : Dom, d.leafletTag = false → d.windowL = false →
      leafletEffectHook false d = (false, { d with leafletTag := true }, true)) := by
  refine ⟨?_, ?_, ?_⟩
  · intro d h1 h2; simp [leafletEffectLoader, h1, h2]
  · intro d; simp [leafletCleanupHook]
  · intro d h1 h2; simp [leafletEffectHook, h1, h2]

/-- Claim C4 (witness): the amended retry behavior evaluated at the concrete
failed page state. -/
theorem failed_tag_retry_behavior_witness :
    leafletEffectLoader domFailedLeaflet = (true, domFailedLeaflet, false) ∧
    (leafletCleanupHook true { domFailedLeaflet with leafletTag := true }).leafletTag = false ∧
    leafletEffectHook false ⟨false, false, false, false⟩ =
      (false, { Dom.mk false false false false with leafletTag := true }, true) :=
  ⟨failed_tag_retry_behavior.1 domFailedLeaflet rfl rfl,
   failed_tag_retry_behavior.2.1 domFailedLeaflet,
   failed_tag_retry_behavior.2.2 ⟨false, false, false, false⟩ rfl rfl⟩

/-- Claim C5: the base-script load step of both loader variants is idempotent
(an available window.L or an existing tag means no injection and the state goes
straight to loaded), and when two hook instances run the step against the same
document, an injection by the first prevents any injection by the second, so at
most one Leaflet tag is ever injected. -/
theorem base_script_load_idempotent_dedup :
    (∀ (f : Bool) (d : Dom), d.windowL = true ∨ d.leafletTag = true →
      leafletEffectHook f d = (true, d, false)) ∧
    (∀ d : Dom, d.windowL = true ∨ d.leafletTag = true →
      leafletEffectLoader d = (true, d, false)) ∧
    (∀ (d : Dom) (fA fB : Bool), (leafletEffectHook fA d).2.2 = true →
      (leafletEffectHook fB (leafletEffectHook fA d).2.1).2.2 = false) := by
  refine ⟨?_, ?_, ?_⟩
  · intro f d h
    rcases h with h | h <;> simp [leafletEffectHook, h]
  · intro d h
    rcases h with h | h <;> simp [leafletEffectLoader, h]
  · intro d fA fB h
    unfold leafletEffectHook at h ⊢
    split_ifs at h
    simp_all

/-- Claim C5 (witness): idempotency on a page whose tag exists and
de-duplication of two instances starting from a clean page. -/
theorem base_script_load_idempotent_dedup_witness :
    leafletEffectHook false domFailedLeaflet = (true, domFailedLeaflet, false) ∧
    leafletEffectLoader domFailedLeaflet = (true, domFailedLeaflet, false) ∧
    (leafletEffectHook false
      (leafletEffectHook false ⟨false, false, false, false⟩).2.1).2.2 = false :=
  ⟨base_script_load_idempotent_dedup.1 false domFailedLeaflet (Or.inr rfl),
   base_script_load_idempotent_dedup.2.1 domFailedLeaflet (Or.inr rfl),
   base_script_load_idempotent_dedup.2.2 ⟨false, false, false, false⟩ false false rfl⟩

end WindyModel

namespace WindyModel

/-- Claim C7 (counterexample): with both scripts loaded and no access key
configured anywhere, the container-based initializeWindy does not fail with a
missing-credential error — it invokes the external initializer with the
hard-coded fallback key and succeeds with a handle. -/
theorem initialize_missing_key_counterexample :
    (initializeWindyContainer (ExtInit.succeeds 1) none none hookStateReady "windy").state.windyInstance
        = some 1 ∧
    (initializeWindyContainer (ExtInit.succeeds 1) none none hookStateReady "windy").state.error
        = none ∧
    (initializeWindyContainer (ExtInit.succeeds 1) none none hookStateReady "windy").invokedExt
        = true ∧
    (initializeWindyContainer (ExtInit.succeeds 1) none none hookStateReady "windy").usedKey
        = some fallbackKey := by
  refine ⟨rfl, rfl, rfl, rfl⟩

/-- Claim C7 (amended): both initializer variants fail with a not-ready error
while the scripts are not loaded and record the raised exception when the
external initializer throws, succeeding exactly otherwise; but only the
map-based variant checks the access key and fails with a missing-credential
error — the container-based variant never fails for a missing key, because its
defaultOptions substitute the hard-coded fallback key. -/
theorem initialize_error_taxonomy :
    (∀ (ext : ExtInit) (envKey : Option String) (s : MapHookState),
      s.scriptLoaded = false →
        (initializeWindyMap ext envKey s).state.error = some "Windy script not loaded yet" ∧
        (initializeWindyMap ext envKey s).invokedExt = false ∧
        (initializeWindyMap ext envKey s).state.windyInstance = s.windyInstance) ∧
    (∀ (ext : ExtInit) (envKey : Option String) (s : MapHookState),
      s.scriptLoaded = true → keyMissing envKey = true →
        (initializeWindyMap ext envKey s).state.error = some "Missing Windy API key" ∧
        (initializeWindyMap ext envKey s).invokedExt = false ∧
        (initializeWindyMap ext envKey s).state.windyInstance = s.windyInstance) ∧
    (∀ (m : String) (envKey : Option String) (s : MapHookState),
      s.scriptLoaded = true → keyMissing envKey = false →
        (initializeWindyMap (ExtInit.throws m) envKey s).state.error = some m ∧
        (initializeWindyMap (ExtInit.throws m) envKey s).state.windyInstance
          = s.windyInstance) ∧
    (∀ (h : ℕ) (envKey : Option String) (s : MapHookState),
      s.scriptLoaded = true → keyMissing envKey = false →
        (initializeWindyMap (ExtInit.succeeds h) envKey s).state.windyInstance = some h) ∧
    (∀ (ext : ExtInit) (envKey keyOverride : Option String) (s : HookState) (cid : String),
      s.initAttempted = false → s.windyInstance = none →
      (s.leafletScriptLoaded = false ∨ s.windyScriptLoaded = false) →
        (initializeWindyContainer ext envKey keyOverride s cid).state.error
          = some "Required scripts not loaded yet" ∧
        (initializeWindyContainer ext envKey keyOverride s cid).invokedExt = false) ∧
    (∀ (m : String) (envKey keyOverride : Option String) (s : HookState) (cid : String),
      s.initAttempted = false → s.windyInstance = none →
      s.leafletScriptLoaded = true → s.windyScriptLoaded = true →
        (initializeWindyContainer (ExtInit.throws m) envKey keyOverride s cid).state.error
          = some m ∧
        (initializeWindyContainer (ExtInit.throws m) envKey keyOverride s cid).state.windyInstance
          = none) ∧
    (∀ (h : ℕ) (envKey : Option String) (s : HookState) (cid : String),
      s.initAttempted = false → s.windyInstance = none →
      s.leafletScriptLoaded = true → s.windyScriptLoaded = true →
        (initializeWindyContainer (ExtInit.succeeds h) envKey none s cid).state.windyInstance
          = some h ∧
        (initializeWindyContainer (ExtInit.succeeds h) envKey none s cid).state.error
          = s.error ∧
        (initializeWindyContainer (ExtInit.succeeds h) envKey none s cid).usedKey
          = some (defaultKey envKey)) := by
  refine ⟨?_, ?_, ?_, ?_, ?_, ?_, ?_⟩
  · intro ext envKey s h1
    simp [initializeWindyMap, h1]
  · intro ext envKey s h1 h2
    simp [initializeWindyMap, h1, h2]
  · intro m envKey s h1 h2
    simp [initializeWindyMap, h1, h2]
  · intro h envKey s h1 h2
    simp [initializeWindyMap, h1, h2]
  · intro ext envKey keyOverride s cid h1 h2 h3
    rcases h3 with h3 | h3 <;> simp [initializeWindyContainer, h1, h2, h3]
  · intro m envKey keyOverride s cid h1 h2 h3 h4
    simp [initializeWindyContainer, h1, h2, h3, h4]
  · intro h envKey s cid h1 h2 h3 h4
    simp [initializeWindyContainer, h1, h2, h3, h4]

/-- Claim C7 (witness): the missing-key rejection of the map-based variant and
the fallback-key success of the container-based variant, both at concrete
states with no configured key. -/
theorem initialize_error_taxonomy_witness :
    (initializeWindyMap (ExtInit.succeeds 1) none ⟨none, false, none, true⟩).state.error
        = some "Missing Windy API key" ∧
    (initializeWindyContainer (ExtInit.succeeds 1) none none hookStateReady "x").state.windyInstance
        = some 1 ∧
    (initializeWindyContainer (ExtInit.succeeds 1) none none hookStateReady "x").usedKey
        = some (defaultKey none) := by
  have h := initialize_error_taxonomy
  refine ⟨(h.2.1 (ExtInit.succeeds 1) none ⟨none, false, none, true⟩ rfl rfl).1, ?_, ?_⟩
  · exact (h.2.2.2.2.2.2 1 none hookStateReady "x" rfl rfl rfl rfl).1
  · exact (h.2.2.2.2.2.2 1 none hookStateReady "x" rfl rfl rfl rfl).2.2

end WindyModel

namespace WindyModel

theorem checkZoom_inv (s : ZoomState) (now : ℕ) (zoom : Option ℚ) (hinv : ZoomInv s) :
    ZoomInv (checkZoomAndToggleBackupLayer true s now zoom) := by
  obtain ⟨cr, om, ac, cz, lc, cns⟩ := s
  obtain ⟨h1, h2⟩ := hinv
  simp only at h1 h2
  unfold ZoomInv
  cases zoom with
  | none =>
      simp only [checkZoomAndToggleBackupLayer]
      split_ifs <;> simp_all
  | some z =>
      simp only [checkZoomAndToggleBackupLayer]
      split_ifs <;> simp_all

theorem checkZoom_toggle (s : ZoomState) (now : ℕ) (z : ℚ) (hinv : ZoomInv s)
    (hthr : ¬ now - s.lastCheck < 50) :
    ((checkZoomAndToggleBackupLayer true s now (some z)).onMap = true ↔ 11 < z) := by
  obtain ⟨cr, om, ac, cz, lc, cns⟩ := s
  obtain ⟨h1, h2⟩ := hinv
  simp only at h1 h2 hthr
  simp only [checkZoomAndToggleBackupLayer]
  split_ifs <;> simp_all

theorem checkZoom_no_reconstruct (s : ZoomState) (now : ℕ) (zoom : Option ℚ)
    (hc : s.created = true) :
    (checkZoomAndToggleBackupLayer true s now zoom).creations = s.creations ∧
    (checkZoomAndToggleBackupLayer true s now zoom).created = true := by
  obtain ⟨cr, om, ac, cz, lc, cns⟩ := s
  simp only at hc
  subst hc
  cases zoom with
  | none =>
      simp only [checkZoomAndToggleBackupLayer]
      split_ifs <;> simp_all
  | some z =>
      simp only [checkZoomAndToggleBackupLayer]
      split_ifs <;> simp_all

theorem checkZoom_creations_le (s : ZoomState) (now : ℕ) (zoom : Option ℚ) :
    (checkZoomAndToggleBackupLayer true s now zoom).creations ≤ s.creations + 1 := by
  obtain ⟨cr, om, ac, cz, lc, cns⟩ := s
  cases zoom with
  | none =>
      simp only [checkZoomAndToggleBackupLayer]
      split_ifs <;> simp_all
  | some z =>
      simp only [checkZoomAndToggleBackupLayer]
      split_ifs <;> simp_all

end WindyModel

namespace WindyModel

/-- Claim C8: every unthrottled check that observes a numeric zoom leaves the
detailed-imagery layer attached exactly when the zoom exceeds 11; the layer
object is constructed at most once (never again once created), and leaving the
detailed state detaches without destroying the object, so a later re-entry
re-attaches the existing object without a new construction. -/
theorem zoom_swap_invariant (s : ZoomState) (now : ℕ) (zoom : Option ℚ)
    (hinv : ZoomInv s) :
    ZoomInv (checkZoomAndToggleBackupLayer true s now zoom) ∧
    (∀ z : ℚ, ¬ now - s.lastCheck < 50 →
      ((checkZoomAndToggleBackupLayer true s now (some z)).onMap = true ↔ 11 < z)) ∧
    (s.created = true →
      (checkZoomAndToggleBackupLayer true s now zoom).creations = s.creations ∧
      (checkZoomAndToggleBackupLayer true s now zoom).created = true) ∧
    (checkZoomAndToggleBackupLayer true s now zoom).creations ≤ s.creations + 1 :=
  ⟨checkZoom_inv s now zoom hinv,
   fun z hthr => checkZoom_toggle s now z hinv hthr,
   fun hc => checkZoom_no_reconstruct s now zoom hc,
   checkZoom_creations_le s now zoom⟩

/-- Claim C8 (witness): from the initial state (nothing constructed, nothing
attached), an unthrottled check at zoom 12 attaches the layer, constructs it
at most once, and preserves the consistency invariant. -/
theorem zoom_swap_invariant_witness :
    ZoomInv (checkZoomAndToggleBackupLayer true ⟨false, false, false, 0, 0, 0⟩ 100 (some 12)) ∧
    ((checkZoomAndToggleBackupLayer true ⟨false, false, false, 0, 0, 0⟩ 100 (some 12)).onMap
        = true ↔ (11 : ℚ) < 12) ∧
    (checkZoomAndToggleBackupLayer true ⟨false, false, false, 0, 0, 0⟩ 100 (some 12)).creations
        ≤ 0 + 1 := by
  have h := zoom_swap_invariant ⟨false, false, false, 0, 0, 0⟩ 100 (some 12)
    ⟨rfl, fun hc => by simp at hc⟩
  exact ⟨h.1, h.2.1 12 (by norm_num), h.2.2.2⟩

end WindyModel

namespace GeoModel

/-- Claim C9: circularBuffer rejects a non-positive radius with
InvalidArgument, and for a positive radius returns a closed polygon (nine
vertices, the closing one repeating the first) whose centroid coincides with
the requested center to within one millionth of a degree. -/
theorem circularBuffer_spec (center : GeoPoint) (r : ℚ) :
    (r ≤ 0 → circularBuffer center r = Except.error GeoError.invalidArgument) ∧
    (0 < r → ∃ p : Polygon, circularBuffer center r = Except.ok p ∧
      closedPolygon p ∧ p.length = 9 ∧
      geoDist (centroid p) center ≤ 1 / 1000000) := by
  obtain ⟨clat, clng⟩ := center
  constructor
  · intro h
    simp [circularBuffer, h]
  · intro h
    have hnot : ¬ r ≤ 0 := not_le.mpr h
    have hp : circularBuffer ⟨clat, clng⟩ r =
        Except.ok ((octagonOffsets (kmToDeg r)).map
            (fun o => GeoPoint.mk (clat + o.1) (clng + o.2)) ++
          [GeoPoint.mk (clat + kmToDeg r) (clng + 0)]) := by
      simp [circularBuffer, hnot]
    refine ⟨_, hp, ?_, ?_, ?_⟩
    · simp [closedPolygon, octagonOffsets]
    · simp [octagonOffsets]
    · have hc : centroid ((octagonOffsets (kmToDeg r)).map
            (fun o => GeoPoint.mk (clat + o.1) (clng + o.2)) ++
          [GeoPoint.mk (clat + kmToDeg r) (clng + 0)]) = ⟨clat, clng⟩ := by
        simp [centroid, octagonOffsets, List.dropLast]
        constructor <;> ring
      rw [hc]
      simp [geoDist]

end GeoModel

namespace GeoModel

/-- Claim C9 (witness): the buffer contract evaluated at the center used by the
map demo, with radius minus one kilometer rejected and radius one kilometer
producing a closed polygon centered there. -/
theorem circularBuffer_spec_witness :
    circularBuffer ⟨10, 106⟩ (-1) = Except.error GeoError.invalidArgument ∧
    (∃ p : Polygon, circularBuffer ⟨10, 106⟩ 1 = Except.ok p ∧
      closedPolygon p ∧ p.length = 9 ∧
      geoDist (centroid p) ⟨10, 106⟩ ≤ 1 / 1000000) :=
  ⟨(circularBuffer_spec ⟨10, 106⟩ (-1)).1 (by norm_num),
   (circularBuffer_spec ⟨10, 106⟩ 1).2 (by norm_num)⟩

end GeoModel
